import Mathlib

/-!
Verification of the LumaScreen border renderer and parameter store
(`src/ringlight.py`, revised design, and `src/ringlight_original.py`,
original bloom design).

The Python code is embedded shallowly:

* Python's exact numeric values are modelled as rationals (`ℚ`): every
  numeric literal in the two files is an integer or a short decimal, so the
  rational reading matches the value the spec reasons about exactly.
* `int(x)` (truncation toward zero) is `pyInt`; for reference formulas the
  spec writes with `round(x)` (Python's banker's rounding) there is
  `pyRound`.
* Python's `//` floor division only occurs as `min_dimension // 2` with a
  non-negative dividend and the positive divisor 2, where it agrees with
  Lean's `Int` division (`Int.ediv`), which is used directly.
* A `paintEvent` becomes a pure function from the overlay state and the
  surface size to a frame description: an `Option RoundedFrame` for the
  revised renderer (`none` is its early return on degenerate dimensions),
  a `List Band` of gradient bands for the original bloom renderer.
* Setter methods take a `PyValue` (a numeric, a QColor, `None`, or any
  other object) and return `Except PyError (state × warned)`: `.error`
  models a raised `ValueError`, the `Bool` records whether a warning was
  logged.
-/

namespace LumaScreen

/-- Python's `int(x)` on an exact rational: truncation toward zero. -/
def pyInt (q : ℚ) : Int := if 0 ≤ q then ⌊q⌋ else ⌈q⌉

/-- Python's `round(x)` on an exact rational: nearest integer, ties to the
even neighbour (banker's rounding). Used only to state the spec's `round`
formulas, never by the embedded code, which truncates. -/
def pyRound (q : ℚ) : Int :=
  if q - ⌊q⌋ < 1 / 2 then ⌊q⌋
  else if 1 / 2 < q - ⌊q⌋ then ⌊q⌋ + 1
  else if 2 ∣ ⌊q⌋ then ⌊q⌋ else ⌊q⌋ + 1

/-- A QColor restricted to what the program uses: an RGB triple. -/
structure Color where
  red : Int
  green : Int
  blue : Int
deriving DecidableEq

/-- `QColor.isValid`: every channel within `[0, 255]`. -/
def Color.isValid (c : Color) : Bool :=
  decide (0 ≤ c.red ∧ c.red ≤ 255 ∧ 0 ≤ c.green ∧ c.green ≤ 255 ∧
          0 ≤ c.blue ∧ c.blue ≤ 255)

/- Configuration constants of `RingLightConfig` (revised file; the original
file repeats the same limits and bloom table). -/
namespace RingLightConfig

def DEFAULT_THICKNESS : Int := 220
def DEFAULT_BRIGHTNESS : ℚ := 1
def MIN_THICKNESS : Int := 1
def MAX_THICKNESS : Int := 900
def MIN_BRIGHTNESS_PERCENT : ℚ := 0
def MAX_BRIGHTNESS_PERCENT : ℚ := 200
def MIN_BRIGHTNESS : ℚ := 0
def MAX_BRIGHTNESS : ℚ := 2
def MAX_ALPHA : Int := 220
def SCREEN_MARGIN : Int := 10
def OUTER_CORNER_RADIUS : Int := 20

/-- The bloom layer table `(intensity, size_multiplier)`; the decimals
0.70, 0.75, 0.45, 0.55, 0.25, 0.40 as exact rationals. -/
def BLOOM_LAYERS : List (ℚ × ℚ) :=
  [(1, 1), (7 / 10, 3 / 4), (9 / 20, 11 / 20), (1 / 4, 2 / 5)]

end RingLightConfig

/-- An argument passed to a setter, as Python's dynamic typing sees it. -/
inductive PyValue where
  | num (q : ℚ)
  | qcolor (c : Color)
  | pyNone
  | other
deriving DecidableEq

/-- The one exception class the setters raise. -/
inductive PyError where
  | valueError
deriving DecidableEq

/-- The mutable attributes of `RingLightOverlay`. -/
structure OverlayState where
  thickness : Int
  brightness : ℚ
  color : Color
deriving DecidableEq

/-- `RingLightOverlay.__init__` defaults (revised file): thickness 220,
brightness 1.0, white. -/
def initialState : OverlayState :=
  { thickness := RingLightConfig.DEFAULT_THICKNESS
    brightness := RingLightConfig.DEFAULT_BRIGHTNESS
    color := ⟨255, 255, 255⟩ }

/-- `RingLightOverlay.set_brightness_percent` (revised file): raises
`ValueError` on a non-numeric argument, warns when the value is outside
`[MIN_BRIGHTNESS_PERCENT, MAX_BRIGHTNESS_PERCENT]`, then stores
`max(MIN_BRIGHTNESS, min(MAX_BRIGHTNESS, value / 100.0))`. -/
def set_brightness_percent (s : OverlayState) (v : PyValue) :
    Except PyError (OverlayState × Bool) :=
  match v with
  | .num q =>
      let warned := !(decide (RingLightConfig.MIN_BRIGHTNESS_PERCENT ≤ q ∧
                              q ≤ RingLightConfig.MAX_BRIGHTNESS_PERCENT))
      let b := max RingLightConfig.MIN_BRIGHTNESS
                 (min RingLightConfig.MAX_BRIGHTNESS (q / 100))
      .ok ({ s with brightness := b }, warned)
  | _ => .error .valueError

/-- `RingLightOverlay.set_thickness` (revised file): raises `ValueError` on a
non-numeric argument, warns when below `MIN_THICKNESS`, then stores
`max(MIN_THICKNESS, int(pixels))` — there is no upper clamp. -/
def set_thickness (s : OverlayState) (v : PyValue) :
    Except PyError (OverlayState × Bool) :=
  match v with
  | .num q =>
      let warned := decide (q < (RingLightConfig.MIN_THICKNESS : ℚ))
      .ok ({ s with thickness := max RingLightConfig.MIN_THICKNESS (pyInt q) },
           warned)
  | _ => .error .valueError

/-- `RingLightOverlay.set_color` (revised file): `None` is a warned no-op, a
non-QColor argument raises `ValueError`, an invalid QColor is a warned no-op,
a valid QColor is stored (only a debug line is logged, no warning). -/
def set_color (s : OverlayState) (v : PyValue) :
    Except PyError (OverlayState × Bool) :=
  match v with
  | .pyNone => .ok (s, true)
  | .qcolor c =>
      if c.isValid then .ok ({ s with color := c }, false) else .ok (s, true)
  | _ => .error .valueError

/-- One call into the parameter store, with its dynamically typed argument. -/
inductive SetterCall where
  | thicknessCall (v : PyValue)
  | brightnessCall (v : PyValue)
  | colorCall (v : PyValue)
deriving DecidableEq

/-- Run one setter; a raised `ValueError` leaves the state unchanged (the
raise happens before any mutation). -/
def applyCall (s : OverlayState) (c : SetterCall) : OverlayState :=
  let r := match c with
    | .thicknessCall v => set_thickness s v
    | .brightnessCall v => set_brightness_percent s v
    | .colorCall v => set_color s v
  match r with
  | .ok (s2, _) => s2
  | .error _ => s

/-- The state after a sequence of setter calls starting from the defaults. -/
def runCalls (cs : List SetterCall) : OverlayState :=
  cs.foldl applyCall initialState

/-- An axis-aligned rectangle `(x, y, width, height)`; every coordinate the
program produces is an integer, so `QRect` and `QRectF` share this type. -/
structure RectF where
  x : Int
  y : Int
  w : Int
  h : Int
deriving DecidableEq

/-- `paintEvent` (revised file), thickness cap: `min(self.thickness,
max(MIN_THICKNESS, min(width, height) // 2 - SCREEN_MARGIN))`. -/
def effective_thickness (thickness w h : Int) : Int :=
  let min_dimension := min w h
  min thickness
    (max RingLightConfig.MIN_THICKNESS
      (min_dimension / 2 - RingLightConfig.SCREEN_MARGIN))

/-- `paintEvent` (revised file), fill alpha:
`max(0, min(255, int(255 * self.brightness)))`. -/
def rounded_alpha (brightness : ℚ) : Int :=
  max 0 (min 255 (pyInt (255 * brightness)))

/-- `paintEvent` (revised file), inner corner radius:
`max(0, OUTER_CORNER_RADIUS - effective_thickness)`. -/
def inner_radius (thickness w h : Int) : Int :=
  max 0 (RingLightConfig.OUTER_CORNER_RADIUS - effective_thickness thickness w h)

/-- The frame the revised renderer paints: the outer rounded rectangle minus
the inner one, filled with the color at the computed alpha. -/
structure RoundedFrame where
  outer : RectF
  outerRadius : Int
  inner : RectF
  innerRadiusVal : Int
  alpha : Int
  color : Color
deriving DecidableEq

/-- `RingLightOverlay.paintEvent` of the revised file as a pure function of
the state and the surface size: `none` models the early return on
`width <= 0 or height <= 0` (nothing painted). -/
def paintRounded (s : OverlayState) (w h : Int) : Option RoundedFrame :=
  if w ≤ 0 ∨ h ≤ 0 then none
  else
    let m := RingLightConfig.SCREEN_MARGIN
    let eff := effective_thickness s.thickness w h
    some
      { outer := ⟨m, m, w - 2 * m, h - 2 * m⟩
        outerRadius := RingLightConfig.OUTER_CORNER_RADIUS
        inner := ⟨m + eff, m + eff, w - 2 * (m + eff), h - 2 * (m + eff)⟩
        innerRadiusVal := inner_radius s.thickness w h
        alpha := rounded_alpha s.brightness
        color := s.color }

/-- The edge a bloom gradient band fades in from. -/
inductive Edge where
  | top
  | bottom
  | left
  | right
deriving DecidableEq

/-- One gradient band of the original bloom renderer: the filled rectangle,
the base color and the alpha at the edge (fading to 0 across the band). -/
structure Band where
  edge : Edge
  rect : RectF
  color : Color
  alpha : Int
deriving DecidableEq

/-- `paintEvent` (original file), thickness cap:
`t = min(self.thickness, max(1, min(w, h)))`. -/
def bloomCap (thickness w h : Int) : Int := min thickness (max 1 (min w h))

/-- `paintEvent` (original file), per-layer band size:
`size = max(1, int(t * mul))`. -/
def bloomLayerSize (t : Int) (mul : ℚ) : Int := max 1 (pyInt ((t : ℚ) * mul))

/-- `paintEvent` (original file), per-layer alpha:
`max(0, min(220, int(255 * self.brightness * intensity)))`. -/
def bloomLayerAlpha (brightness intensity : ℚ) : Int :=
  max 0 (min 220 (pyInt (255 * brightness * intensity)))

/-- The four `fillRect` calls of one bloom layer, in source order. -/
def layerBands (c : Color) (alpha size w h : Int) : List Band :=
  [ ⟨.top, ⟨0, 0, w, size⟩, c, alpha⟩
  , ⟨.bottom, ⟨0, h - size, w, size⟩, c, alpha⟩
  , ⟨.left, ⟨0, 0, size, h⟩, c, alpha⟩
  , ⟨.right, ⟨w - size, 0, size, h⟩, c, alpha⟩ ]

/-- `RingLightOverlay.paintEvent` of the original file as a pure function:
the list of gradient bands it fills, outer layer first. It performs no
degenerate-dimension check. -/
def paintBloom (s : OverlayState) (w h : Int) : List Band :=
  let t := bloomCap s.thickness w h
  RingLightConfig.BLOOM_LAYERS.flatMap fun layer =>
    layerBands s.color (bloomLayerAlpha s.brightness layer.1)
      (bloomLayerSize t layer.2) w h

/-- The spec's formula for the rounded-frame fill alpha, word for word:
`clamp(round(255 * p.brightness), 0, 255)`. Kept only to compare against
`rounded_alpha`, which the code computes with truncation instead. -/
def specRoundedAlpha (brightness : ℚ) : Int :=
  max 0 (min 255 (pyRound (255 * brightness)))

/-- The spec's formula for a bloom layer's alpha, word for word:
`clamp(round(255 * p.brightness * intensity), 0, 220)`. Kept only to compare
against `bloomLayerAlpha`, which the code computes with truncation. -/
def specBloomAlpha (brightness intensity : ℚ) : Int :=
  max 0 (min 220 (pyRound (255 * brightness * intensity)))

/-- The parameter-store invariant of the spec's data model, as far as the
code maintains it: thickness at least `MIN_THICKNESS`, brightness within
`[MIN_BRIGHTNESS, MAX_BRIGHTNESS]`, color channels within `[0, 255]`. -/
def StateValid (s : OverlayState) : Prop :=
  RingLightConfig.MIN_THICKNESS ≤ s.thickness ∧
  RingLightConfig.MIN_BRIGHTNESS ≤ s.brightness ∧
  s.brightness ≤ RingLightConfig.MAX_BRIGHTNESS ∧
  s.color.isValid = true

/-! ## Helper lemmas -/

/-- Clamping `int(q)` from below by 1 picks `int(q)` exactly when `1 ≤ q`. -/
theorem max_one_pyInt (q : ℚ) : max 1 (pyInt q) = if 1 ≤ q then pyInt q else 1 := by
  by_cases h : 1 ≤ q
  · rw [if_pos h, max_eq_right]
    rw [pyInt, if_pos (le_trans zero_le_one h)]
    exact Int.le_floor.mpr (by exact_mod_cast h)
  · rw [if_neg h]
    push_neg at h
    by_cases h0 : 0 ≤ q
    · rw [pyInt, if_pos h0, max_eq_left]
      have hlt : ⌊q⌋ < 1 := Int.floor_lt.mpr (by exact_mod_cast h)
      omega
    · rw [pyInt, if_neg h0, max_eq_left]
      push_neg at h0
      have hle : ⌈q⌉ ≤ 0 := Int.ceil_le.mpr (by exact_mod_cast le_of_lt h0)
      omega

/-- The brightness clamp written as a case split on the percent input. -/
theorem clamp_brightness (q : ℚ) :
    max RingLightConfig.MIN_BRIGHTNESS (min RingLightConfig.MAX_BRIGHTNESS (q / 100)) =
      if q < 0 then 0 else if 200 < q then 2 else q / 100 := by
  rw [RingLightConfig.MIN_BRIGHTNESS, RingLightConfig.MAX_BRIGHTNESS]
  split_ifs with h1 h2
  · rw [max_eq_left]
    exact le_trans (min_le_right _ _) (by linarith)
  · rw [min_eq_left (by linarith), max_eq_right (by norm_num)]
  · push_neg at h1 h2
    rw [min_eq_right (by linarith), max_eq_right (by linarith)]

/-- The default state satisfies the parameter-store invariant. -/
theorem initialState_valid : StateValid initialState := by
  refine ⟨by decide, ?_, ?_, by decide⟩ <;>
    norm_num [initialState, RingLightConfig.DEFAULT_BRIGHTNESS,
      RingLightConfig.MIN_BRIGHTNESS, RingLightConfig.MAX_BRIGHTNESS]

/-- Every single setter call preserves the parameter-store invariant. -/
theorem applyCall_valid (s : OverlayState) (c : SetterCall) (hv : StateValid s) :
    StateValid (applyCall s c) := by
  obtain ⟨ht, hb0, hb2, hc⟩ := hv
  cases c with
  | thicknessCall v =>
    cases v with
    | num q =>
        simp only [applyCall, set_thickness]
        exact ⟨le_max_left _ _, hb0, hb2, hc⟩
    | qcolor c => exact ⟨ht, hb0, hb2, hc⟩
    | pyNone => exact ⟨ht, hb0, hb2, hc⟩
    | other => exact ⟨ht, hb0, hb2, hc⟩
  | brightnessCall v =>
    cases v with
    | num q =>
        simp only [applyCall, set_brightness_percent]
        refine ⟨ht, le_max_left _ _, ?_, hc⟩
        exact max_le (by norm_num [RingLightConfig.MIN_BRIGHTNESS,
          RingLightConfig.MAX_BRIGHTNESS]) (min_le_left _ _)
    | qcolor c => exact ⟨ht, hb0, hb2, hc⟩
    | pyNone => exact ⟨ht, hb0, hb2, hc⟩
    | other => exact ⟨ht, hb0, hb2, hc⟩
  | colorCall v =>
    cases v with
    | num q => exact ⟨ht, hb0, hb2, hc⟩
    | qcolor c =>
        by_cases hcv : c.isValid
        · simp only [applyCall, set_color, hcv, if_true]
          exact ⟨ht, hb0, hb2, hcv⟩
        · simp only [applyCall, set_color, hcv, if_false]
          exact ⟨ht, hb0, hb2, hc⟩
    | pyNone => exact ⟨ht, hb0, hb2, hc⟩
    | other => exact ⟨ht, hb0, hb2, hc⟩

/-- The first four bands the bloom renderer paints are exactly the base
layer (intensity 1.0, size multiplier 1.0). -/
theorem paintBloom_take_four (s : OverlayState) (w h : Int) :
    (paintBloom s w h).take 4 =
      layerBands s.color (bloomLayerAlpha s.brightness 1)
        (bloomLayerSize (bloomCap s.thickness w h) 1) w h := by
  simp only [paintBloom, RingLightConfig.BLOOM_LAYERS, List.flatMap_cons,
    List.flatMap_nil, layerBands, List.append_nil, List.cons_append, List.nil_append,
    List.take]

/-! ## Claims -/

/-- C1 (counterexample): on a 21×21 surface with the default thickness the
revised renderer computes `effective_thickness = 1` (the `MIN_THICKNESS`
floor), which is strictly greater than `min(width, height) // 2 - margin = 0`,
and the resulting inner rectangle has negative width — the claimed bound does
not hold for every surface with positive dimensions. -/
theorem effective_thickness_bound_small_surface :
    effective_thickness initialState.thickness 21 21 = 1 ∧
    ¬ effective_thickness initialState.thickness 21 21 ≤
        min 21 21 / 2 - RingLightConfig.SCREEN_MARGIN ∧
    ∃ f, paintRounded initialState 21 21 = some f ∧ f.inner.w < 0 := by
  refine ⟨by decide, by decide, ⟨_, rfl, ?_⟩⟩
  decide

/-- C1 (amended): whenever `min(width, height) ≥ 22` — that is, whenever
`min(width, height) // 2 - margin` is at least `MIN_THICKNESS` — the bound
`effective_thickness ≤ min(width, height) // 2 - margin` holds for every
input thickness, and the inner rectangle of the painted frame has
non-negative width and height. -/
theorem effective_thickness_bound_of_large_surface (s : OverlayState) (w h : Int)
    (hmin : 22 ≤ min w h) :
    effective_thickness s.thickness w h ≤ min w h / 2 - RingLightConfig.SCREEN_MARGIN ∧
    ∃ f, paintRounded s w h = some f ∧ 0 ≤ f.inner.w ∧ 0 ≤ f.inner.h := by
  have h1 : effective_thickness s.thickness w h ≤
      min w h / 2 - RingLightConfig.SCREEN_MARGIN := by
    simp only [effective_thickness, RingLightConfig.MIN_THICKNESS,
      RingLightConfig.SCREEN_MARGIN]
    omega
  have hw : ¬ (w ≤ 0 ∨ h ≤ 0) := by omega
  refine ⟨h1, ⟨_, by rw [paintRounded, if_neg hw], ?_, ?_⟩⟩
  · show 0 ≤ w - 2 * (RingLightConfig.SCREEN_MARGIN + effective_thickness s.thickness w h)
    simp only [RingLightConfig.SCREEN_MARGIN] at h1 ⊢
    omega
  · show 0 ≤ h - 2 * (RingLightConfig.SCREEN_MARGIN + effective_thickness s.thickness w h)
    simp only [RingLightConfig.SCREEN_MARGIN] at h1 ⊢
    omega

/-- C1 (witness): the amended bound at the 1920×1080 surface. -/
theorem effective_thickness_bound_of_large_surface_inst :
    effective_thickness initialState.thickness 1920 1080 ≤
      min 1920 1080 / 2 - RingLightConfig.SCREEN_MARGIN ∧
    ∃ f, paintRounded initialState 1920 1080 = some f ∧ 0 ≤ f.inner.w ∧ 0 ≤ f.inner.h :=
  effective_thickness_bound_of_large_surface initialState 1920 1080 (by decide)

/-- C2 (counterexample): at brightness `0.07` (reachable via
`set_brightness_percent(7)`) the code's truncated alpha is 17 while the
spec's `clamp(round(255 * b), 0, 255)` is 18 — the fill alpha does not equal
the rounded formula for every brightness in `[0, 2]`. -/
theorem rounded_alpha_trunc_ne_round :
    rounded_alpha (7 / 100) = 17 ∧ specRoundedAlpha (7 / 100) = 18 ∧
    rounded_alpha (7 / 100) ≠ specRoundedAlpha (7 / 100) := by
  have h1 : rounded_alpha (7 / 100) = 17 := by norm_num [rounded_alpha, pyInt]
  have h2 : specRoundedAlpha (7 / 100) = 18 := by norm_num [specRoundedAlpha, pyRound]
  exact ⟨h1, h2, by rw [h1, h2]; decide⟩

/-- C2 (amended): for every brightness `b` in `[0, 2]` the rounded-frame fill
alpha equals `min(255, trunc(255 * b))` (truncation, not rounding), and for
every `b ≥ 1` it is exactly 255 — brightness above 100% cannot push opacity
past full. -/
theorem rounded_alpha_eq_min_floor (b : ℚ) (h0 : 0 ≤ b) (_h2 : b ≤ 2) :
    rounded_alpha b = min 255 ⌊255 * b⌋ ∧ (1 ≤ b → rounded_alpha b = 255) := by
  have hb : (0:ℚ) ≤ 255 * b := by positivity
  have hfl : pyInt (255 * b) = ⌊255 * b⌋ := if_pos hb
  constructor
  · rw [rounded_alpha, hfl, max_eq_right]
    exact le_min (by norm_num) (Int.le_floor.mpr (by push_cast; positivity))
  · intro h1
    have hge : (255:Int) ≤ ⌊255 * b⌋ := Int.le_floor.mpr (by push_cast; nlinarith)
    rw [rounded_alpha, hfl, min_eq_left hge]
    norm_num

/-- C2 (witness): the amended alpha law at brightness `1.5`. -/
theorem rounded_alpha_eq_min_floor_inst :
    rounded_alpha (3 / 2) = min 255 ⌊(255:ℚ) * (3 / 2)⌋ ∧
    ((1:ℚ) ≤ 3 / 2 → rounded_alpha (3 / 2) = 255) :=
  rounded_alpha_eq_min_floor (3 / 2) (by norm_num) (by norm_num)

/-- C3 (counterexample): `set_thickness(1000)` from the defaults stores
thickness 1000, above `MAX_THICKNESS = 900` — the setter clamps only from
below, so the claimed upper bound fails. -/
theorem runCalls_thickness_exceeds_max :
    (runCalls [SetterCall.thicknessCall (PyValue.num 1000)]).thickness = 1000 ∧
    ¬ (runCalls [SetterCall.thicknessCall (PyValue.num 1000)]).thickness ≤
        RingLightConfig.MAX_THICKNESS := by
  have h : (runCalls [SetterCall.thicknessCall (PyValue.num 1000)]).thickness = 1000 := by
    norm_num [runCalls, applyCall, set_thickness, pyInt, initialState,
      RingLightConfig.MIN_THICKNESS]
  exact ⟨h, by rw [h]; decide⟩

/-- C3 (amended): after every sequence of setter calls starting from the
defaults, `thickness ≥ MIN_THICKNESS = 1`, `0 ≤ brightness ≤ 2`, and every
color channel lies in `[0, 255]` — but thickness has no upper clamp, so
`thickness ≤ 900` is not an invariant of the store itself. -/
theorem runCalls_state_valid : ∀ cs : List SetterCall, StateValid (runCalls cs) := by
  intro cs
  suffices h : ∀ s, StateValid s → StateValid (cs.foldl applyCall s) from
    h initialState initialState_valid
  induction cs with
  | nil => exact fun s hs => hs
  | cons c cs ih => exact fun s hs => ih _ (applyCall_valid s c hs)

/-- C4: for every numeric `px`, `set_thickness(px)` returns normally and
stores exactly `int(px)` when `px ≥ 1` and exactly 1 when `px < 1`, changing
nothing else, and warns precisely when `px < 1`. -/
theorem set_thickness_spec (s : OverlayState) (q : ℚ) :
    set_thickness s (.num q) =
      .ok ({ s with thickness := if 1 ≤ q then pyInt q else 1 }, decide (q < 1)) := by
  simp only [set_thickness, RingLightConfig.MIN_THICKNESS, max_one_pyInt, Int.cast_one]

/-- C5: for every numeric `v`, `set_brightness_percent(v)` returns normally
and stores exactly `v / 100` when `v ∈ [0, 200]` and the clamp of `v / 100`
into `[0, 2]` otherwise, warning precisely when `v` is outside `[0, 200]`. -/
theorem set_brightness_percent_spec (s : OverlayState) (q : ℚ) :
    set_brightness_percent s (.num q) =
      .ok ({ s with brightness := if q < 0 then 0 else if 200 < q then 2 else q / 100 },
           !(decide (0 ≤ q ∧ q ≤ 200))) := by
  simp only [set_brightness_percent, clamp_brightness,
    RingLightConfig.MIN_BRIGHTNESS_PERCENT, RingLightConfig.MAX_BRIGHTNESS_PERCENT]

/-- C6 (counterexample): on a degenerate surface (width 0) the revised
renderer paints nothing, but the original bloom renderer still emits its
gradient bands — among them the left band `(0, 0, 1, 100)`, a rectangle of
positive area — so "either mode produces an empty frame" fails for
`LAYERED_BLOOM`. -/
theorem paintBloom_degenerate_nonempty :
    paintRounded initialState 0 100 = none ∧
    paintBloom initialState 0 100 ≠ [] ∧
    Band.mk .left ⟨0, 0, 1, 100⟩ ⟨255, 255, 255⟩ 220 ∈ paintBloom initialState 0 100 := by
  have hc : bloomCap initialState.thickness 0 100 = 1 := by decide
  have hs : bloomLayerSize 1 1 = 1 := by norm_num [bloomLayerSize, pyInt]
  have ha : bloomLayerAlpha initialState.brightness 1 = 220 := by
    norm_num [bloomLayerAlpha, pyInt, initialState, RingLightConfig.DEFAULT_BRIGHTNESS]
  refine ⟨by rw [paintRounded, if_pos (Or.inl le_rfl)], ?_, ?_⟩
  · intro hnil
    have h4 := paintBloom_take_four initialState 0 100
    rw [hnil] at h4
    simp [layerBands] at h4
  · apply List.take_subset 4
    rw [paintBloom_take_four, hc, hs, ha]
    simp [layerBands, initialState]

/-- C6 (amended): on a surface with `width ≤ 0` or `height ≤ 0` the revised
`ROUNDED_FRAME` renderer returns the empty frame, while the original
`LAYERED_BLOOM` renderer — which has no degenerate-dimension check — always
emits its 16 gradient bands; neither raises an exception (both are total
functions). -/
theorem paint_degenerate (s : OverlayState) (w h : Int) (hd : w ≤ 0 ∨ h ≤ 0) :
    paintRounded s w h = none ∧ (paintBloom s w h).length = 16 := by
  constructor
  · rw [paintRounded, if_pos hd]
  · simp [paintBloom, RingLightConfig.BLOOM_LAYERS, layerBands]

/-- C6 (witness): the degenerate behaviour at a 0×100 surface. -/
theorem paint_degenerate_inst :
    paintRounded initialState 0 100 = none ∧ (paintBloom initialState 0 100).length = 16 :=
  paint_degenerate initialState 0 100 (Or.inl le_rfl)

/-- C7 (counterexample): the setters do raise — a non-numeric argument to
`set_brightness_percent` or `set_thickness`, or a non-QColor argument to
`set_color`, raises `ValueError` (each method's docstring documents the
raise), so "no setter ever propagates an exception for any input" fails. -/
theorem setters_raise_on_type_mismatch :
    set_brightness_percent initialState .other = .error .valueError ∧
    set_thickness initialState .other = .error .valueError ∧
    set_color initialState (.num 5) = .error .valueError :=
  ⟨rfl, rfl, rfl⟩

/-- C7 (amended): for arguments of the documented types no setter raises:
every numeric input to `set_brightness_percent` and `set_thickness` returns
normally, a `None` color is a warned no-op leaving the state unchanged, and
any QColor argument returns normally — an invalid one as a warned no-op. -/
theorem setters_ok_on_typed_input (s : OverlayState) (q : ℚ) (c : Color) :
    (∃ r, set_brightness_percent s (.num q) = .ok r) ∧
    (∃ r, set_thickness s (.num q) = .ok r) ∧
    set_color s .pyNone = .ok (s, true) ∧
    set_color s (.qcolor c) =
      .ok (if c.isValid then { s with color := c } else s, !c.isValid) := by
  refine ⟨⟨_, rfl⟩, ⟨_, rfl⟩, rfl, ?_⟩
  cases hc : c.isValid <;> simp [set_color, hc]

/-- C8 (counterexample): at brightness `0.07` with the base-layer intensity
1.0 the code's truncated layer alpha is 17 while the spec's
`clamp(round(255 * b * i), 0, 220)` is 18 — the layer alpha does not equal
the rounded formula. -/
theorem bloomLayerAlpha_trunc_ne_round :
    bloomLayerAlpha (7 / 100) 1 = 17 ∧ specBloomAlpha (7 / 100) 1 = 18 ∧
    bloomLayerAlpha (7 / 100) 1 ≠ specBloomAlpha (7 / 100) 1 := by
  have h1 : bloomLayerAlpha (7 / 100) 1 = 17 := by norm_num [bloomLayerAlpha, pyInt]
  have h2 : specBloomAlpha (7 / 100) 1 = 18 := by norm_num [specBloomAlpha, pyRound]
  exact ⟨h1, h2, by rw [h1, h2]; decide⟩

/-- C8 (amended): for non-negative brightness and intensity every bloom
layer's alpha equals `min(220, trunc(255 * brightness * intensity))`
(truncation, not rounding), and at brightness 2.0 with base intensity 1.0
it is exactly 220, the safety cap — never 255. -/
theorem bloomLayerAlpha_eq_min_floor (b i : ℚ) (hb : 0 ≤ b) (hi : 0 ≤ i) :
    bloomLayerAlpha b i = min 220 ⌊255 * b * i⌋ ∧ bloomLayerAlpha 2 1 = 220 := by
  constructor
  · have hq : (0:ℚ) ≤ 255 * b * i := by positivity
    rw [bloomLayerAlpha, pyInt, if_pos hq, max_eq_right]
    exact le_min (by norm_num) (Int.le_floor.mpr (by push_cast; positivity))
  · norm_num [bloomLayerAlpha, pyInt]

/-- C8 (witness): the amended layer-alpha law at brightness 2.0,
intensity 1.0, where the 220 safety cap is hit. -/
theorem bloomLayerAlpha_eq_min_floor_inst :
    bloomLayerAlpha 2 1 = min 220 ⌊(255:ℚ) * 2 * 1⌋ ∧ bloomLayerAlpha 2 1 = 220 :=
  bloomLayerAlpha_eq_min_floor 2 1 (by norm_num) (by norm_num)

/-- C9: with all other inputs fixed, `inner_radius = max(0, radius -
effective_thickness)` is monotonically non-increasing in the input
thickness, and it is exactly 0 whenever the effective thickness is at least
the outer corner radius 20. -/
theorem inner_radius_antitone_and_floor (w h t₁ t₂ : Int) :
    (t₁ ≤ t₂ → inner_radius t₂ w h ≤ inner_radius t₁ w h) ∧
    (RingLightConfig.OUTER_CORNER_RADIUS ≤ effective_thickness t₁ w h →
      inner_radius t₁ w h = 0) := by
  simp only [inner_radius, effective_thickness, RingLightConfig.OUTER_CORNER_RADIUS,
    RingLightConfig.MIN_THICKNESS, RingLightConfig.SCREEN_MARGIN]
  omega

/-- C10: the bloom renderer caps the layering thickness at the full smaller
surface dimension (not at `min(width, height) / 2 - margin`): whenever
`thickness ≥ min(w, h) ≥ 1`, the cap equals `min(w, h)`, each layer's band
size is `max(1, int(min(w, h) * size_multiplier))`, the base layer's band
size is the whole smaller dimension, and (for `h ≤ w`) the base layer's top
and bottom bands each cover the entire surface, overlapping completely. -/
theorem bloom_cap_full_min_dimension (s : OverlayState) (w h : Int)
    (hpos : 1 ≤ min w h) (hth : min w h ≤ s.thickness) :
    bloomCap s.thickness w h = min w h ∧
    bloomLayerSize (bloomCap s.thickness w h) 1 = min w h ∧
    (∀ mul : ℚ, bloomLayerSize (bloomCap s.thickness w h) mul =
      max 1 (pyInt ((min w h : Int) * mul))) ∧
    (h ≤ w → (paintBloom s w h).take 2 =
      [ ⟨.top, ⟨0, 0, w, h⟩, s.color, bloomLayerAlpha s.brightness 1⟩
      , ⟨.bottom, ⟨0, 0, w, h⟩, s.color, bloomLayerAlpha s.brightness 1⟩ ]) := by
  have hcap : bloomCap s.thickness w h = min w h := by
    simp only [bloomCap]
    omega
  have hsize : bloomLayerSize (min w h) 1 = min w h := by
    rw [bloomLayerSize, mul_one, pyInt,
      if_pos (by exact_mod_cast (by omega : (0:Int) ≤ min w h)), Int.floor_intCast]
    omega
  refine ⟨hcap, by rw [hcap, hsize], fun mul => by rw [hcap]; rfl, ?_⟩
  intro hhw
  have hmin : min w h = h := min_eq_right hhw
  have ht2 : (paintBloom s w h).take 2 = ((paintBloom s w h).take 4).take 2 := by
    rw [List.take_take]
    norm_num
  rw [ht2, paintBloom_take_four, hcap, hsize, hmin, layerBands]
  simp

/-- C10 (witness): the full-dimension cap on a 300×200 surface with the
default thickness 220. -/
theorem bloom_cap_full_min_dimension_inst :
    bloomCap initialState.thickness 300 200 = min 300 200 ∧
    bloomLayerSize (bloomCap initialState.thickness 300 200) 1 = min 300 200 ∧
    (∀ mul : ℚ, bloomLayerSize (bloomCap initialState.thickness 300 200) mul =
      max 1 (pyInt ((min 300 200 : Int) * mul))) ∧
    ((200:Int) ≤ 300 → (paintBloom initialState 300 200).take 2 =
      [ ⟨.top, ⟨0, 0, 300, 200⟩, initialState.color, bloomLayerAlpha initialState.brightness 1⟩
      , ⟨.bottom, ⟨0, 0, 300, 200⟩, initialState.color, bloomLayerAlpha initialState.brightness 1⟩ ]) :=
  bloom_cap_full_min_dimension initialState 300 200 (by decide) (by decide)

end LumaScreen
